/-
Verification of the compliance evaluation engine of the
`ai_building_plan_extraction` repository.

The definitions below are a shallow embedding of the Python sources
`scripts/check_component_compliance.py` and
`scripts/generate_enhanced_compliance_report.py`:

* JSON / Python numbers are modelled as `ℚ`; untyped rule values as `PyVal`
  (null, number, string or dict).  Python truthiness, the `in` substring
  operator, `float(...)` coercion of plain decimal literals, `str.upper`,
  `str.lower`, banker's `round`, and f-string rendering of floats are
  modelled explicitly on `List Char` so that everything evaluates inside
  the kernel.
* Fallible code paths (an uncaught `AttributeError`) are modelled with
  `Except`.
* Component attribute values produced by the extraction stage (areas,
  widths, distances) are numeric in the source data and are modelled as
  `Option ℚ`; an absent or null JSON key is `none`.
-/
import Mathlib

attribute [local semireducible] Rat.mul Rat.add Rat.sub Rat.inv

namespace PlanCompliance

/-! ## Python string primitives (ASCII, over `List Char`) -/

/-- ASCII uppercase of one character, as Python's `str.upper` acts on the
ASCII range used by the rule texts. -/
def chUpper (c : Char) : Char :=
  if 'a' ≤ c ∧ c ≤ 'z' then Char.ofNat (c.toNat - 32) else c

/-- ASCII lowercase of one character (Python `str.lower`). -/
def chLower (c : Char) : Char :=
  if 'A' ≤ c ∧ c ≤ 'Z' then Char.ofNat (c.toNat + 32) else c

/-- Python `s.upper()`. -/
def strUpper (s : String) : String := ⟨s.data.map chUpper⟩

/-- Python `s.lower()`. -/
def strLower (s : String) : String := ⟨s.data.map chLower⟩

/-- Whether `needle` occurs as a contiguous run inside `hay`
(character lists). -/
def subListB (needle : List Char) : List Char → Bool
  | [] => needle.isEmpty
  | c :: rest => needle.isPrefixOf (c :: rest) || subListB needle rest

/-- Python's `needle in hay` on strings: substring containment, true for
the empty needle. -/
def pyIn (needle hay : String) : Bool := subListB needle.data hay.data

/-- Python `s[:n]` (character slice). -/
def strTake (s : String) (n : ℕ) : String := ⟨s.data.take n⟩

/-- Python `s.replace(" ", "_")` (single-character replacement). -/
def strUnderscore (s : String) : String :=
  ⟨s.data.map (fun c => if c = ' ' then '_' else c)⟩

/-- Helper for `strTitle`: walk the characters tracking whether the
previous character was alphabetic. -/
def strTitleGo : Bool → List Char → List Char
  | _, [] => []
  | prevAlpha, c :: rest =>
    if c.isAlpha then
      (if prevAlpha then chLower c else chUpper c) :: strTitleGo true rest
    else
      c :: strTitleGo false rest

/-- Python `s.title()` restricted to ASCII words. -/
def strTitle (s : String) : String := ⟨strTitleGo false s.data⟩

/-- Python `s.strip()` on ASCII whitespace. -/
def strStrip (s : String) : String :=
  ⟨(s.data.dropWhile Char.isWhitespace).reverse.dropWhile Char.isWhitespace |>.reverse⟩

/-! ## Python numeric primitives -/

/-- Numeric value of a digit list read in base 10 (digits already
validated). -/
def digitsVal (cs : List Char) : ℕ :=
  cs.foldl (fun acc c => 10 * acc + (c.toNat - 48)) 0

/-- Parse the body of a decimal literal: `digits [. digits]` with at least
one digit overall.  The fractional part is scaled by `10 ^ length`. -/
def parseDecBody (cs : List Char) : Option ℚ :=
  let ip := cs.takeWhile Char.isDigit
  let rest := cs.dropWhile Char.isDigit
  match rest with
  | [] => if ip.isEmpty then none else some (mkRat (digitsVal ip) 1)
  | '.' :: frac =>
    if frac.all Char.isDigit ∧ ¬(ip.isEmpty ∧ frac.isEmpty) then
      some (mkRat (digitsVal ip * 10 ^ frac.length + digitsVal frac) (10 ^ frac.length))
    else none
  | _ => none

/-- Python `float(s)` restricted to plain decimal literals with an optional
sign and surrounding whitespace (the shape of every rule value in the
data set; exponent / inf / nan forms are out of scope and map to `none`,
i.e. to the caught `ValueError` branch). -/
def pyFloatOfString (s : String) : Option ℚ :=
  match (strStrip s).data with
  | '+' :: rest => parseDecBody rest
  | '-' :: rest => (parseDecBody rest).map Neg.neg
  | rest => parseDecBody rest

/-- Scalar Python/JSON value (an entry of one of the small dicts the
evaluators build for `actual_value`). -/
inductive PyLeaf where
  | lnone : PyLeaf
  | lnum (q : ℚ) : PyLeaf
  | lstr (s : String) : PyLeaf
deriving DecidableEq

/-- Untyped Python/JSON value, as stored in a rule's `value` field and in an
evaluation's `expected_value` / `actual_value` fields. -/
inductive PyVal where
  | vnone : PyVal
  | vnum (q : ℚ) : PyVal
  | vstr (s : String) : PyVal
  | vdict (fields : List (String × PyLeaf)) : PyVal
deriving DecidableEq

/-- Python truthiness of a `PyVal`. -/
def pyTruthy : PyVal → Bool
  | .vnone => false
  | .vnum q => q != 0
  | .vstr s => !s.isEmpty
  | .vdict fs => !fs.isEmpty

/-- Python `float(v)`: numbers pass through, strings are parsed, `None` and
dicts raise the `TypeError` that every call site catches (so: `none`). -/
def pyFloat : PyVal → Option ℚ
  | .vnum q => some q
  | .vstr s => pyFloatOfString s
  | _ => none

/-- Truthiness of an optional numeric attribute (`None` and `0` are
falsy). -/
def qTruthy : Option ℚ → Bool
  | none => false
  | some q => q != 0

/-- Python `candidate.score or default`: `None` and `0.0` fall back to the
default. -/
def pyOrScore (score : Option ℚ) (d : ℚ) : ℚ :=
  match score with
  | none => d
  | some s => if s = 0 then d else s

/-- An `Option ℚ` attribute embedded back into a `PyVal` field. -/
def optQ : Option ℚ → PyVal
  | none => .vnone
  | some q => .vnum q

/-- Python's banker's rounding to an integer (`round(q)`), modelled exactly
on ℚ: round half to even. -/
def pyRound (q : ℚ) : ℤ :=
  if q - (q.floor : ℚ) < mkRat 1 2 then q.floor
  else if mkRat 1 2 < q - (q.floor : ℚ) then q.floor + 1
  else if q.floor % 2 = 0 then q.floor else q.floor + 1

/-- Python `round(q, 1)`. -/
def round1 (q : ℚ) : ℚ := mkRat (pyRound (q * 10)) 10

/-- Python `round(q, 3)`. -/
def round3 (q : ℚ) : ℚ := mkRat (pyRound (q * 1000)) 1000

/-- Smallest exponent `k ≤ fuel` with `q * 10 ^ k` integral (0 if the fuel
runs out). -/
def decExp : ℕ → ℚ → ℕ
  | 0, _ => 0
  | n + 1, q => if q.den = 1 then 0 else 1 + decExp n (q * 10)

/-- Decimal rendering of the Python float `q` inside an f-string
(`f"{q}"`): at least one fractional digit, e.g. `5 ↦ "5.0"`,
`7/2 ↦ "3.5"`.  CPython prints the shortest decimal for the underlying
binary float; for the decimal-valued quantities arising in this code the
two agree. -/
def pyFloatRepr (q : ℚ) : String :=
  let k := decExp 28 q
  let n := (q * (10 : ℚ) ^ k).floor
  let sign := if n < 0 then "-" else ""
  let ds := Nat.repr n.natAbs
  if k = 0 then sign ++ ds ++ ".0"
  else
    let padded := if ds.data.length < k + 1 then
        ⟨List.replicate (k + 1 - ds.data.length) '0' ++ ds.data⟩ else ds
    sign ++ ⟨padded.data.take (padded.data.length - k)⟩ ++ "." ++
      ⟨padded.data.drop (padded.data.length - k)⟩

/-- Python `f"{q:.1f}"`: one fractional digit with banker's rounding.
(The sign of a negative value rounding to zero is dropped, which never
occurs for the nonnegative measurements of this code.) -/
def fmt1 (q : ℚ) : String :=
  let n := pyRound (q * 10)
  let sign := if n < 0 then "-" else ""
  sign ++ Nat.repr (n.natAbs / 10) ++ "." ++ Nat.repr (n.natAbs % 10)

end PlanCompliance

deriving instance DecidableEq for Except

namespace PlanCompliance

/-! ## Data model (`check_component_compliance.py`, Data Models section) -/

/-- A candidate rule matched to a component (`RuleCandidate`).  The raw
`metadata` dict is never read by the evaluators and is omitted. -/
structure RuleCandidate where
  rule_id : String
  source : String
  score : Option ℚ
deriving DecidableEq

/-- Full rule details from the rule store (`RuleDetail`).  The Python field
`attribute` is spelled `attr` here because `attribute` is a Lean keyword. -/
structure RuleDetail where
  rule_id : String
  section_id : Option String
  section_title : Option String
  requirement : Option String
  topic : Option String
  attr : Option String
  value : PyVal
  zones : List String
deriving DecidableEq

/-- Result of evaluating a component against a rule
(`ComplianceEvaluation`); also the shape of one serialized evaluation dict
in the report (the aggregator emits every field, so `topic := none` models
a present key holding JSON null). -/
structure ComplianceEvaluation where
  component_id : String
  component_type : String
  component_name : String
  rule_id : String
  section_id : Option String
  section_title : Option String
  requirement : String
  topic : Option String
  expected_value : PyVal
  actual_value : PyVal
  status : String
  confidence : ℚ
  notes : List String
  zones : List String
  source : String
deriving DecidableEq

/-- A room dict from the components document.  The extraction stage emits
numeric measurements, so `area`/`width`/`length` are `Option ℚ` (`none`
for an absent or null key). -/
structure RoomComponent where
  name : Option String
  room_type : Option String
  area : Option ℚ
  width : Option ℚ
  length : Option ℚ
deriving DecidableEq

/-- A setback dict: annotated setbacks carry `distance`, geometric ones
`avg_distance`. -/
structure SetbackComponent where
  direction : Option String
  distance : Option ℚ
  avg_distance : Option ℚ
deriving DecidableEq

/-- An opening dict.  `location_first` is the first element of the
`location` list (its only use, in the component id); `.lstr "0"` when the
key is absent (the `[0]` of the default `['0','0']`). -/
structure OpeningComponent where
  opening_type : Option String
  width : Option ℚ
  is_egress : Bool
  location_first : PyLeaf
deriving DecidableEq

/-- A parking-space dict. -/
structure ParkingComponent where
  space_type : Option String
  width : Option ℚ
  length : Option ℚ
  accessible : Bool
deriving DecidableEq

/-- The lot-information dict.  Only the length of `boundary_dimensions` is
ever read, so the list is modelled by its length. -/
structure LotInfoComponent where
  lot_number : PyLeaf
  lot_area : Option ℚ
  lot_area_unit : Option String
  boundary_dimensions_count : ℕ
deriving DecidableEq

/-- A water-feature dict. -/
structure WaterFeatureComponent where
  feature_type : Option String
  name : Option String
deriving DecidableEq

/-- Truthiness of a scalar dict entry. -/
def pyTruthyLeaf : PyLeaf → Bool
  | .lnone => false
  | .lnum q => q != 0
  | .lstr s => !s.isEmpty

/-- Rendering of a scalar inside an f-string.  (A JSON integer would print
without the trailing `.0`; the distinction only affects component-id
strings no claim inspects.) -/
def leafFStr : PyLeaf → String
  | .lnone => "None"
  | .lnum q => pyFloatRepr q
  | .lstr s => s

/-- An `Option ℚ` attribute as a scalar dict entry. -/
def optQL : Option ℚ → PyLeaf
  | none => .lnone
  | some q => .lnum q

/-! ## Component evaluators (`check_component_compliance.py` 432-775) -/

/-- `evaluate_room_component` (lines 432-504). -/
def evaluate_room_component (component : RoomComponent) (rule : RuleDetail)
    (candidate : RuleCandidate) : Option ComplianceEvaluation :=
  let room_type := component.room_type.getD ""
  let area := component.area
  let width := component.width
  let length := component.length
  let requirement_upper := strUpper (rule.requirement.getD "")
  if !pyIn (strUpper room_type) requirement_upper && !pyIn "BEDROOM" requirement_upper then
    none
  else
    let expected_value := rule.value
    let attr := strLower (rule.attr.getD "")
    let asn : PyVal × String × List String :=
      if pyIn "area" attr || pyIn "size" attr then
        if qTruthy area && pyTruthy expected_value then
          match pyFloat expected_value with
          | some min_area =>
            let a := area.getD 0
            if min_area ≤ a then
              (optQ area, "PASS", ["Room area " ++ pyFloatRepr a ++
                " sq ft meets minimum " ++ pyFloatRepr min_area ++ " sq ft"])
            else
              (optQ area, "FAIL", ["Room area " ++ pyFloatRepr a ++
                " sq ft below minimum " ++ pyFloatRepr min_area ++ " sq ft"])
          | none => (optQ area, "REVIEW", ["Could not parse minimum area requirement"])
        else (optQ area, "REVIEW", [])
      else if pyIn "dimension" attr || pyIn "width" attr then
        let actual := if qTruthy width then width else length
        if qTruthy actual && pyTruthy expected_value then
          match pyFloat expected_value with
          | some min_dim =>
            let a := actual.getD 0
            if min_dim ≤ a then
              (optQ actual, "PASS", ["Dimension " ++ pyFloatRepr a ++
                " ft meets minimum " ++ pyFloatRepr min_dim ++ " ft"])
            else
              (optQ actual, "FAIL", ["Dimension " ++ pyFloatRepr a ++
                " ft below minimum " ++ pyFloatRepr min_dim ++ " ft"])
          | none => (optQ actual, "REVIEW", ["Could not parse minimum dimension requirement"])
        else (optQ actual, "REVIEW", [])
      else (.vnone, "REVIEW", ["Rule attribute not directly measurable from extracted data"])
    some {
      component_id := "room_" ++ component.name.getD "unknown"
      component_type := "room"
      component_name := component.name.getD ""
      rule_id := rule.rule_id
      section_id := rule.section_id
      section_title := rule.section_title
      requirement := rule.requirement.getD ""
      topic := rule.topic
      expected_value := expected_value
      actual_value := asn.1
      status := asn.2.1
      confidence := pyOrScore candidate.score (mkRat 1 2)
      notes := asn.2.2
      zones := rule.zones
      source := candidate.source }

/-- `evaluate_setback_component` (lines 507-563). -/
def evaluate_setback_component (component : SetbackComponent) (rule : RuleDetail)
    (candidate : RuleCandidate) (is_geometric : Bool) : Option ComplianceEvaluation :=
  let direction := component.direction.getD "unknown"
  let distance := if is_geometric then component.avg_distance else component.distance
  let requirement_upper := strUpper (rule.requirement.getD "")
  let direction_upper := strUpper direction
  if pyIn "FRONT" direction_upper && !pyIn "FRONT" requirement_upper &&
      (!pyIn "SIDE" requirement_upper && !pyIn "REAR" requirement_upper) then
    none
  else
    let expected_value := rule.value
    let sn : String × List String :=
      match distance, pyTruthy expected_value with
      | some d, true =>
        match pyFloat expected_value with
        | some min_setback =>
          if min_setback ≤ d then
            ("PASS", [direction ++ " setback " ++ fmt1 d ++
              " ft meets minimum " ++ pyFloatRepr min_setback ++ " ft"])
          else
            ("FAIL", [direction ++ " setback " ++ fmt1 d ++
              " ft below minimum " ++ pyFloatRepr min_setback ++ " ft"])
        | none => ("REVIEW", ["Could not parse minimum setback requirement"])
      | _, _ => ("REVIEW", ["Setback distance or requirement value missing"])
    some {
      component_id := "setback_" ++ direction
      component_type := if is_geometric then "geometric_setback" else "annotated_setback"
      component_name := direction ++ " setback"
      rule_id := rule.rule_id
      section_id := rule.section_id
      section_title := rule.section_title
      requirement := rule.requirement.getD ""
      topic := rule.topic
      expected_value := expected_value
      actual_value := optQ distance
      status := sn.1
      confidence := pyOrScore candidate.score (mkRat 7 10)
      notes := sn.2
      zones := rule.zones
      source := candidate.source }

/-- `evaluate_opening_component` (lines 566-616). -/
def evaluate_opening_component (component : OpeningComponent) (rule : RuleDetail)
    (candidate : RuleCandidate) : Option ComplianceEvaluation :=
  let opening_type := component.opening_type.getD ""
  let width := component.width
  let is_egress := component.is_egress
  let requirement_upper := strUpper (rule.requirement.getD "")
  if opening_type = "door" && !pyIn "DOOR" requirement_upper then none
  else if is_egress && !pyIn "EGRESS" requirement_upper && !pyIn "EXIT" requirement_upper then none
  else
    let expected_value := rule.value
    let sn : String × List String :=
      match width, pyTruthy expected_value with
      | some w, true =>
        match pyFloat expected_value with
        | some min_width =>
          if min_width ≤ w then
            ("PASS", [opening_type ++ " width " ++ pyFloatRepr w ++
              " ft meets minimum " ++ pyFloatRepr min_width ++ " ft"])
          else
            ("FAIL", [opening_type ++ " width " ++ pyFloatRepr w ++
              " ft below minimum " ++ pyFloatRepr min_width ++ " ft"])
        | none => ("REVIEW", ["Could not parse minimum width requirement"])
      | _, _ => ("REVIEW", [])
    some {
      component_id := "opening_" ++ opening_type ++ "_" ++ leafFStr component.location_first
      component_type := "opening"
      component_name := opening_type ++ " " ++ (if is_egress then "(egress)" else "")
      rule_id := rule.rule_id
      section_id := rule.section_id
      section_title := rule.section_title
      requirement := rule.requirement.getD ""
      topic := rule.topic
      expected_value := expected_value
      actual_value := optQ width
      status := sn.1
      confidence := pyOrScore candidate.score (mkRat 3 5)
      notes := sn.2
      zones := rule.zones
      source := candidate.source }

/-- `evaluate_parking_component` (lines 619-680). -/
def evaluate_parking_component (component : ParkingComponent) (rule : RuleDetail)
    (candidate : RuleCandidate) : Option ComplianceEvaluation :=
  let width := component.width
  let length := component.length
  let accessible := component.accessible
  let requirement_upper := strUpper (rule.requirement.getD "")
  if accessible && !pyIn "ACCESSIBLE" requirement_upper && !pyIn "ADA" requirement_upper then none
  else
    let expected_value := rule.value
    let attr := strLower (rule.attr.getD "")
    let sn : String × List String :=
      if pyIn "width" attr && width.isSome && pyTruthy expected_value then
        match pyFloat expected_value with
        | some min_width =>
          let w := width.getD 0
          if min_width ≤ w then
            ("PASS", ["Parking width " ++ pyFloatRepr w ++
              " ft meets minimum " ++ pyFloatRepr min_width ++ " ft"])
          else
            ("FAIL", ["Parking width " ++ pyFloatRepr w ++
              " ft below minimum " ++ pyFloatRepr min_width ++ " ft"])
        | none => ("REVIEW", ["Could not parse minimum width"])
      else if pyIn "length" attr && length.isSome && pyTruthy expected_value then
        match pyFloat expected_value with
        | some min_length =>
          let l := length.getD 0
          if min_length ≤ l then
            ("PASS", ["Parking length " ++ pyFloatRepr l ++
              " ft meets minimum " ++ pyFloatRepr min_length ++ " ft"])
          else
            ("FAIL", ["Parking length " ++ pyFloatRepr l ++
              " ft below minimum " ++ pyFloatRepr min_length ++ " ft"])
        | none => ("REVIEW", ["Could not parse minimum length"])
      else ("REVIEW", [])
    some {
      component_id := "parking_" ++ component.space_type.getD "unknown"
      component_type := "parking"
      component_name := component.space_type.getD "" ++ " " ++
        (if accessible then "(accessible)" else "")
      rule_id := rule.rule_id
      section_id := rule.section_id
      section_title := rule.section_title
      requirement := rule.requirement.getD ""
      topic := rule.topic
      expected_value := expected_value
      actual_value := .vdict [("width", optQL width), ("length", optQL length)]
      status := sn.1
      confidence := pyOrScore candidate.score (mkRat 3 5)
      notes := sn.2
      zones := rule.zones
      source := candidate.source }

/-- `evaluate_lot_info_component` (lines 683-732). -/
def evaluate_lot_info_component (component : LotInfoComponent) (rule : RuleDetail)
    (candidate : RuleCandidate) : Option ComplianceEvaluation :=
  let lot_number := component.lot_number
  let lot_area := component.lot_area
  let lot_area_unit := component.lot_area_unit.getD "m²"
  let expected_value := rule.value
  let attr := strLower (rule.attr.getD "")
  let requirement_upper := strUpper (rule.requirement.getD "")
  let sn : String × List String :=
    if pyIn "area" attr || pyIn "SIZE" requirement_upper then
      if qTruthy lot_area && pyTruthy expected_value then
        match pyFloat expected_value with
        | some min_area =>
          let a := lot_area.getD 0
          if min_area ≤ a then
            ("PASS", ["Lot area " ++ pyFloatRepr a ++ " " ++ lot_area_unit ++
              " meets minimum " ++ pyFloatRepr min_area ++ " " ++ lot_area_unit])
          else
            ("FAIL", ["Lot area " ++ pyFloatRepr a ++ " " ++ lot_area_unit ++
              " below minimum " ++ pyFloatRepr min_area ++ " " ++ lot_area_unit])
        | none => ("REVIEW", ["Could not parse minimum area requirement"])
      else ("REVIEW", ["Lot area not specified on plan"])
    else ("REVIEW", [])
  some {
    component_id := "lot_" ++ (if pyTruthyLeaf lot_number then leafFStr lot_number else "unknown")
    component_type := "lot_info"
    component_name := if pyTruthyLeaf lot_number then "Lot " ++ leafFStr lot_number else "Site Lot"
    rule_id := rule.rule_id
    section_id := rule.section_id
    section_title := rule.section_title
    requirement := rule.requirement.getD ""
    topic := rule.topic
    expected_value := expected_value
    actual_value := .vdict [("area", optQL lot_area), ("unit", .lstr lot_area_unit),
      ("dimensions_count", .lnum component.boundary_dimensions_count)]
    status := sn.1
    confidence := pyOrScore candidate.score (mkRat 3 5)
    notes := sn.2
    zones := rule.zones
    source := candidate.source }

/-- `evaluate_water_feature_component` (lines 735-775). -/
def evaluate_water_feature_component (component : WaterFeatureComponent) (rule : RuleDetail)
    (candidate : RuleCandidate) : Option ComplianceEvaluation :=
  let feature_type := component.feature_type.getD ""
  let feature_name := component.name.getD ""
  let requirement_upper := strUpper (rule.requirement.getD "")
  let expected_value := rule.value
  if pyIn "CREEK" requirement_upper && feature_type ≠ "creek" then none
  else if pyIn "RIVER" requirement_upper && feature_type ≠ "river" then none
  else
    some {
      component_id := "water_" ++ feature_type ++ "_" ++ strUnderscore feature_name
      component_type := "water_feature"
      component_name := feature_name
      rule_id := rule.rule_id
      section_id := rule.section_id
      section_title := rule.section_title
      requirement := rule.requirement.getD ""
      topic := rule.topic
      expected_value := expected_value
      actual_value := .vdict [("type", .lstr feature_type), ("name", .lstr feature_name)]
      status := "REVIEW"
      confidence := pyOrScore candidate.score (mkRat 1 2)
      notes := [strTitle feature_type ++ " '" ++ feature_name ++ "' identified on plan",
        "Environmental regulations and setback requirements should be verified"]
      zones := rule.zones
      source := candidate.source }

/-- One extracted component, tagged as in `process_components` (which walks
rooms, geometric setbacks, openings, parking, lot info and water features
per sheet and dispatches to the matching evaluator). -/
inductive Component where
  | room (c : RoomComponent)
  | setback (c : SetbackComponent) (is_geometric : Bool)
  | opening (c : OpeningComponent)
  | parking (c : ParkingComponent)
  | lot_info (c : LotInfoComponent)
  | water_feature (c : WaterFeatureComponent)
deriving DecidableEq

/-- The per-type dispatch performed by `process_components`. -/
def evaluateComponent : Component → RuleDetail → RuleCandidate → Option ComplianceEvaluation
  | .room c, r, k => evaluate_room_component c r k
  | .setback c g, r, k => evaluate_setback_component c r k g
  | .opening c, r, k => evaluate_opening_component c r k
  | .parking c, r, k => evaluate_parking_component c r k
  | .lot_info c, r, k => evaluate_lot_info_component c r k
  | .water_feature c, r, k => evaluate_water_feature_component c r k

/-! ## LLM relevance check (`check_component_compliance.py` 165-266) -/

/-- Truthiness of an optional string. -/
def strTruthy : Option String → Bool
  | none => false
  | some s => !s.isEmpty

/-- Rendering of an optional string inside an f-string (`None` prints as
the text `"None"`). -/
def optStrFStr : Option String → String
  | none => "None"
  | some s => s

/-- The `component_type` tag each call site passes to
`check_rule_relevance`. -/
def componentTag : Component → String
  | .room _ => "room"
  | .setback _ g => if g then "geometric_setback" else "setback"
  | .opening _ => "opening"
  | .parking _ => "parking"
  | .lot_info _ => "lot_info"
  | .water_feature _ => "water_feature"

/-- `component_data.get("name", "unnamed")`: only rooms and water features
carry a `name` key. -/
def componentNameKey : Component → String
  | .room c => c.name.getD "unnamed"
  | .water_feature c => c.name.getD "unnamed"
  | _ => "unnamed"

/-- The `component_desc` string built in `check_rule_relevance`
(lines 182-198). -/
def componentDesc (c : Component) : String :=
  let base := componentTag c ++ ": " ++ componentNameKey c
  match c with
  | .room rc =>
    base ++ (if qTruthy rc.area then ", area=" ++ pyFloatRepr (rc.area.getD 0) ++ " sq ft" else "")
      ++ (if strTruthy rc.room_type then ", type=" ++ rc.room_type.getD "" else "")
  | .setback sc _ =>
    base ++ ", direction=" ++ sc.direction.getD "unknown" ++ ", distance=" ++
      (match sc.avg_distance with
       | some q => pyFloatRepr q
       | none => match sc.distance with
         | some q => pyFloatRepr q
         | none => "unknown") ++ " units"
  | .opening oc =>
    base ++ ", type=" ++ oc.opening_type.getD "unknown" ++ ", width=" ++
      (match oc.width with | some q => pyFloatRepr q | none => "unknown") ++ " ft" ++
      (if oc.is_egress then ", egress=true" else "")
  | .parking pc =>
    base ++ ", type=" ++ pc.space_type.getD "unknown" ++ ", dimensions=" ++
      (match pc.width with | some q => pyFloatRepr q | none => "?") ++ "x" ++
      (match pc.length with | some q => pyFloatRepr q | none => "?") ++ " ft"
  | _ => base

/-- The `rule_desc` string (lines 201-203). -/
def ruleDesc (rule : RuleDetail) : String :=
  "Rule " ++ rule.rule_id ++ ": " ++ optStrFStr rule.requirement ++
    (if strTruthy rule.topic then " (Topic: " ++ rule.topic.getD "" ++ ")" else "")

/-- The rendered prompt of `check_rule_relevance` (lines 206-236). -/
def relevancePrompt (c : Component) (rule : RuleDetail) : String :=
  "You are a building code compliance expert. Determine if the following building code rule is applicable and relevant to check against the given building component.\n\nComponent:\n"
  ++ componentDesc c ++
  "\n\nRule:\n"
  ++ ruleDesc rule ++
  "\n\nQuestion: Is this rule actually applicable and relevant for checking this specific component?\n\nConsider:\n- Does the rule's requirement logically apply to this type of component?\n- Is the rule about something this component can actually satisfy or violate?\n- Would a human building plan reviewer check this component against this rule?\n\nExamples of IRRELEVANT matches:\n- Checking a \"window\" against \"open space network connectivity\"\n- Checking a \"living room\" against \"riparian wetland setbacks\" (unless property is near water)\n- Checking a \"door\" against \"temporary entertainment events\"\n\nExamples of RELEVANT matches:\n- Checking a \"bedroom\" against \"minimum room area requirements\"\n- Checking a \"setback\" against \"boundary clearance requirements\"\n- Checking an \"egress door\" against \"minimum door width requirements\"\n\nRespond in JSON format:\n\x7b\n  \"relevant\": true/false,\n  \"confidence\": 0.0-1.0,\n  \"reasoning\": \"brief explanation\"\n\x7d"

/-- The judgment oracle: one blocking call that covers the whole `try`
block of `check_rule_relevance` (the chat-completion request plus the
response-text parsing of lines 238-261, both driven by the external
service).  `Except.error e` is a raised exception whose `str(exc)` is
`e`; `Except.ok` is the parsed `(relevant, confidence, reasoning)`
triple. -/
def OracleFn : Type := String → Except String (Bool × ℚ × String)

/-- `check_rule_relevance` (lines 165-266): without a client every rule is
assumed relevant at confidence 0.5; an oracle exception is caught and
mapped to relevant at confidence 0.3 with the truncated error text as
reasoning. -/
def check_rule_relevance (c : Component) (rule : RuleDetail)
    (openai_client : Option OracleFn) : Bool × ℚ × String :=
  match openai_client with
  | none => (true, mkRat 1 2, "LLM unavailable, defaulting to relevant")
  | some f =>
    match f (relevancePrompt c rule) with
    | .ok res => res
    | .error exc => (true, mkRat 3 10, "LLM error: " ++ strTake exc 100)

/-! ## Report building (`check_component_compliance.py` 1021-1060) -/

/-- One `counts[s] += 1` step on an insertion-ordered tally, as both
`defaultdict(int)` (aggregator) and `dict.get(s, 0) + 1`
(enhanced-report summary) behave. -/
def bumpCount : List (String × ℕ) → String → List (String × ℕ)
  | [], s => [(s, 1)]
  | (k, n) :: rest, s => if s = k then (k, n + 1) :: rest else (k, n) :: bumpCount rest s

/-- The status tally over an evaluation list (`status_counts` /
`status_breakdown`). -/
def tallyStatuses (evals : List ComplianceEvaluation) : List (String × ℕ) :=
  evals.foldl (fun acc e => bumpCount acc e.status) []

/-- Dict lookup with default 0 (`status_counts["PASS"]` on a
`defaultdict(int)`, and `.get("PASS", 0)`). -/
def countsGet : List (String × ℕ) → String → ℕ
  | [], _ => 0
  | (k, n) :: rest, s => if s = k then n else countsGet rest s

/-- The JSON report document of `build_compliance_report`. -/
structure ComplianceReport where
  plan_name : String
  generated_at : String
  summary_total : ℕ
  summary_breakdown : List (String × ℕ)
  summary_pass_rate : ℚ
  evaluations : List ComplianceEvaluation
deriving DecidableEq

/-- `build_compliance_report` (lines 1021-1060).  The timestamp comes from
the external clock and is passed in.  Serialization keeps every
evaluation field and rounds `confidence` to 3 decimals. -/
def build_compliance_report (plan_name generated_at : String)
    (evaluations : List ComplianceEvaluation) : ComplianceReport :=
  let status_counts := tallyStatuses evaluations
  { plan_name := plan_name
    generated_at := generated_at
    summary_total := evaluations.length
    summary_breakdown := status_counts
    summary_pass_rate :=
      if evaluations.isEmpty then 0
      else round1 ((countsGet status_counts "PASS" : ℚ) / evaluations.length * 100)
    evaluations := evaluations.map fun e => { e with confidence := round3 e.confidence } }

/-! ## Evaluation filtering and deduplication
(`generate_enhanced_compliance_report.py` 784-845 and the summary
recomputation of lines 869-879) -/

/-- One sheet of the components document; only `lot_info` is read by the
report-time pass (`none` models an absent or null key, and an empty dict
is falsy). -/
structure Sheet where
  lot_info : Option (List (String × PyLeaf))
deriving DecidableEq

/-- The components document. -/
structure ComponentsData where
  sheets : List Sheet
deriving DecidableEq

/-- The static blocklist of building-specific phrases (lines 801-808). -/
def buildingKeywords : List String :=
  ["dwelling house", "building work", "class 10 building", "building height",
    "roofed area", "site cover"]

/-- `sheets and sheets[0].get("lot_info")` truthiness (lines 795-798). -/
def isSitePlan (cd : ComponentsData) : Bool :=
  match cd.sheets with
  | [] => false
  | s :: _ =>
    match s.lot_info with
    | none => false
    | some d => !d.isEmpty

/-- The per-evaluation body of the site-plan domain filter
(lines 814-827): lower-cases requirement, topic and zones and checks the
blocklist.  `eval.get("topic", "")` yields `None` for a present null
topic, so `.lower()` raises — that is the `Except.error` branch.
Returns whether the evaluation is kept. -/
def siteFilterStep (e : ComplianceEvaluation) : Except String Bool :=
  let requirement := strLower e.requirement
  match e.topic with
  | none => .error "AttributeError: 'NoneType' object has no attribute 'lower'"
  | some t =>
    let topic := strLower t
    let zones := e.zones.map strLower
    let is_building_specific := buildingKeywords.any fun kw =>
      pyIn kw requirement || pyIn kw topic || zones.any (fun z => pyIn kw z)
    .ok (!is_building_specific)

/-- The filtering loop of lines 810-829; a raised exception aborts the
whole call, exactly as the uncaught `AttributeError` does. -/
def domainFilterGo (sp : Bool) : List ComplianceEvaluation → Except String (List ComplianceEvaluation)
  | [] => .ok []
  | e :: rest =>
    if sp then
      match siteFilterStep e with
      | .error msg => .error msg
      | .ok keep => (fun tail => if keep then e :: tail else tail) <$> domainFilterGo sp rest
    else (e :: ·) <$> domainFilterGo sp rest

/-- The domain-filter phase of `filter_and_deduplicate_evaluations`. -/
def domainFilterEvaluations (evaluations : List ComplianceEvaluation)
    (components_data : ComponentsData) : Except String (List ComplianceEvaluation) :=
  domainFilterGo (isSitePlan components_data) evaluations

/-- One step of the dedup loop (lines 832-838): `seen_rules[rule_id] =
eval` when the id is new or the confidence strictly improves; a Python
dict update keeps the key's original position. -/
def dedupInsert (seen : List (String × ComplianceEvaluation)) (e : ComplianceEvaluation) :
    List (String × ComplianceEvaluation) :=
  match seen with
  | [] => [(e.rule_id, e)]
  | (k, v) :: rest =>
    if e.rule_id = k then
      if v.confidence < e.confidence then (k, e) :: rest else (k, v) :: rest
    else (k, v) :: dedupInsert rest e

/-- `list(seen_rules.values())` after the dedup loop. -/
def dedupByRule (filtered : List ComplianceEvaluation) : List ComplianceEvaluation :=
  (filtered.foldl dedupInsert []).map Prod.snd

/-- `filter_and_deduplicate_evaluations` (lines 784-845). -/
def filter_and_deduplicate_evaluations (evaluations : List ComplianceEvaluation)
    (components_data : ComponentsData) : Except String (List ComplianceEvaluation) :=
  (domainFilterEvaluations evaluations components_data).map dedupByRule

/-- The summary recomputed by `build_enhanced_report` after filtering
(lines 869-879); `eval.get("status", "REVIEW")` always finds the key in
an aggregator-shaped evaluation. -/
structure EnhancedSummary where
  total_evaluations : ℕ
  status_breakdown : List (String × ℕ)
  pass_rate : ℚ
deriving DecidableEq

/-- The recomputation itself: exact (unrounded) pass rate, `0.0` on an
empty list. -/
def recomputeSummary (evals : List ComplianceEvaluation) : EnhancedSummary :=
  let status_breakdown := tallyStatuses evals
  { total_evaluations := evals.length
    status_breakdown := status_breakdown
    pass_rate :=
      if evals.isEmpty then 0
      else (countsGet status_breakdown "PASS" : ℚ) / evals.length * 100 }

/-! ## Arithmetic lemmas about the rounding model -/

theorem mkRat_cast_eq_div (z : ℤ) (d : ℕ) : (mkRat z d : ℚ) = (z : ℚ) / (d : ℚ) := by
  rw [Rat.mkRat_eq_divInt, Rat.divInt_eq_div]
  push_cast
  rfl

theorem ratFloor_le (q : ℚ) : (q.floor : ℚ) ≤ q := Rat.le_floor.mp le_rfl

theorem pyRound_nonneg {q : ℚ} (hq : 0 ≤ q) : 0 ≤ pyRound q := by
  have hf : (0 : ℤ) ≤ q.floor := Rat.le_floor.mpr (by exact_mod_cast hq)
  unfold pyRound
  split_ifs <;> omega

theorem pyRound_le {q : ℚ} {n : ℤ} (h : q ≤ (n : ℚ)) : pyRound q ≤ n := by
  have hfn : q.floor ≤ n := by
    by_contra hc
    push_neg at hc
    have h2 : ((n + 1 : ℤ) : ℚ) ≤ q := Rat.le_floor.mp (by omega)
    push_cast at h2
    linarith
  have hhalf : (mkRat 1 2 : ℚ) = 1 / 2 := by rw [mkRat_cast_eq_div]; norm_num
  unfold pyRound
  split_ifs with h1 h2 h3
  · exact hfn
  · rw [hhalf] at h1
    have hq : (q.floor : ℚ) + 1 / 2 ≤ q := by linarith [ratFloor_le q]
    by_contra hcon
    push_neg at hcon
    have hfn2 : q.floor = n := by omega
    rw [hfn2] at hq
    linarith
  · exact hfn
  · rw [hhalf] at h1
    have hq : (q.floor : ℚ) + 1 / 2 ≤ q := by linarith [ratFloor_le q]
    by_contra hcon
    push_neg at hcon
    have hfn2 : q.floor = n := by omega
    rw [hfn2] at hq
    linarith

theorem round3_mem_unit {q : ℚ} (h0 : 0 ≤ q) (h1 : q ≤ 1) :
    0 ≤ round3 q ∧ round3 q ≤ 1 := by
  have ha : (0 : ℤ) ≤ pyRound (q * 1000) := pyRound_nonneg (by linarith)
  have hb : pyRound (q * 1000) ≤ (1000 : ℤ) := pyRound_le (by push_cast; linarith)
  unfold round3
  rw [mkRat_cast_eq_div]
  constructor
  · apply div_nonneg _ (by norm_num)
    exact_mod_cast ha
  · rw [div_le_one (by norm_num)]
    exact_mod_cast hb

theorem pyOrScore_mem_unit {score : Option ℚ} {d : ℚ}
    (hs : ∀ s, score = some s → 0 ≤ s ∧ s ≤ 1) (hd0 : 0 ≤ d) (hd1 : d ≤ 1) :
    0 ≤ pyOrScore score d ∧ pyOrScore score d ≤ 1 := by
  cases score with
  | none => exact ⟨hd0, hd1⟩
  | some s =>
    simp only [pyOrScore]
    split_ifs with h
    · exact ⟨hd0, hd1⟩
    · exact hs s rfl

/-! ## Lemmas about the status tally -/

theorem countsGet_bumpCount (cs : List (String × ℕ)) (s t : String) :
    countsGet (bumpCount cs t) s = countsGet cs s + (if s = t then 1 else 0) := by
  induction cs with
  | nil =>
    by_cases h : s = t <;> simp [bumpCount, countsGet, h]
  | cons p rest ih =>
    obtain ⟨k, n⟩ := p
    by_cases ht : t = k
    · subst ht
      by_cases hs : s = t <;> simp [bumpCount, countsGet, hs]
    · by_cases hs : s = k
      · subst hs
        have hst : ¬ s = t := fun h => ht (h ▸ rfl)
        simp [bumpCount, countsGet, ht, hst]
      · simp [bumpCount, countsGet, ht, hs, ih]

theorem countsGet_foldl (l : List ComplianceEvaluation) (init : List (String × ℕ)) (s : String) :
    countsGet (l.foldl (fun acc e => bumpCount acc e.status) init) s =
      countsGet init s + (l.filter fun e => e.status == s).length := by
  induction l generalizing init with
  | nil => simp
  | cons e rest ih =>
    rw [List.foldl_cons, ih, countsGet_bumpCount, List.filter_cons]
    by_cases h : e.status = s
    · rw [if_pos h.symm, if_pos (by simp [h])]
      simp only [List.length_cons]
      omega
    · rw [if_neg (fun hh => h hh.symm), if_neg (by simp [h])]
      omega

theorem countsGet_tally (evals : List ComplianceEvaluation) (s : String) :
    countsGet (tallyStatuses evals) s = (evals.filter fun e => e.status == s).length := by
  unfold tallyStatuses
  rw [countsGet_foldl]
  simp [countsGet]

/-! ## Lemmas about substring search -/

theorem subListB_nil (hay : List Char) : subListB [] hay = true := by
  cases hay <;> simp [subListB, List.isPrefixOf]

theorem pyIn_empty (s : String) : pyIn "" s = true := subListB_nil s.data

/-! ## Lemmas about deduplication

The dedup loop is an insertion-ordered association list keyed by
`rule_id`.  `findKey` is lookup on that list; `better` is the effect of
one loop iteration on the entry of a single key. -/

def findKey (k : String) : List (String × ComplianceEvaluation) → Option ComplianceEvaluation
  | [] => none
  | (k', v) :: rest => if k = k' then some v else findKey k rest

/-- What one dedup step does to the retained evaluation of key `k`. -/
def better (k : String) (cur : Option ComplianceEvaluation) (e : ComplianceEvaluation) :
    Option ComplianceEvaluation :=
  if e.rule_id = k then
    match cur with
    | none => some e
    | some v => if v.confidence < e.confidence then some e else some v
  else cur

theorem findKey_dedupInsert (seen : List (String × ComplianceEvaluation))
    (e : ComplianceEvaluation) (k : String) :
    findKey k (dedupInsert seen e) = better k (findKey k seen) e := by
  induction seen with
  | nil =>
    by_cases h : k = e.rule_id
    · simp [dedupInsert, findKey, better, h]
    · have hek : ¬ (e.rule_id = k) := fun hh => h hh.symm
      simp [dedupInsert, findKey, better, h, hek]
  | cons q rest ih =>
    obtain ⟨k', v⟩ := q
    by_cases h1 : e.rule_id = k'
    · by_cases h3 : k = k'
      · subst h3
        by_cases h2 : v.confidence < e.confidence <;>
          simp [dedupInsert, findKey, better, h1, h2]
      · have hek : ¬ (e.rule_id = k) := fun hh => h3 ((h1.symm.trans hh).symm)
        have hk'k : ¬ (k' = k) := fun hh => h3 hh.symm
        by_cases h2 : v.confidence < e.confidence <;>
          simp [dedupInsert, findKey, better, h1, h2, h3, hek, hk'k]
    · by_cases h3 : k = k'
      · have hek : ¬ (e.rule_id = k) := fun hh => h1 (hh.trans h3)
        simp [dedupInsert, findKey, better, h1, h3, hek]
      · simp [dedupInsert, findKey, h1, h3, ih]

theorem findKey_foldl (l : List ComplianceEvaluation)
    (seen : List (String × ComplianceEvaluation)) (k : String) :
    findKey k (l.foldl dedupInsert seen) = l.foldl (better k) (findKey k seen) := by
  induction l generalizing seen with
  | nil => rfl
  | cons e rest ih => rw [List.foldl_cons, List.foldl_cons, ih, findKey_dedupInsert]

theorem fold_better_ge_cur (k : String) (l : List ComplianceEvaluation)
    (u v : ComplianceEvaluation) (hcur : l.foldl (better k) (some u) = some v) :
    u.confidence ≤ v.confidence := by
  induction l generalizing u with
  | nil =>
    rw [List.foldl_nil] at hcur
    cases hcur
    exact le_refl _
  | cons e rest ih =>
    rw [List.foldl_cons] at hcur
    by_cases h : e.rule_id = k
    · by_cases h2 : u.confidence < e.confidence
      · have hb : better k (some u) e = some e := by simp [better, h, h2]
        rw [hb] at hcur
        exact le_trans (le_of_lt h2) (ih e hcur)
      · have hb : better k (some u) e = some u := by simp [better, h, h2]
        rw [hb] at hcur
        exact ih u hcur
    · have hb : better k (some u) e = some u := by simp [better, h]
      rw [hb] at hcur
      exact ih u hcur

theorem fold_better_ge_mem (k : String) (l : List ComplianceEvaluation)
    (cur : Option ComplianceEvaluation) (v : ComplianceEvaluation)
    (hf : l.foldl (better k) cur = some v) :
    ∀ f ∈ l, f.rule_id = k → f.confidence ≤ v.confidence := by
  induction l generalizing cur with
  | nil => simp
  | cons e rest ih =>
    rw [List.foldl_cons] at hf
    intro f hfm hfk
    rcases List.mem_cons.mp hfm with rfl | hfm'
    · have hw : ∃ w, better k cur f = some w ∧ f.confidence ≤ w.confidence := by
        cases cur with
        | none => exact ⟨f, by simp [better, hfk], le_refl _⟩
        | some uu =>
          by_cases h2 : uu.confidence < f.confidence
          · exact ⟨f, by simp [better, hfk, h2], le_refl _⟩
          · exact ⟨uu, by simp [better, hfk, h2], le_of_not_lt h2⟩
      obtain ⟨w, hw1, hw2⟩ := hw
      rw [hw1] at hf
      exact le_trans hw2 (fold_better_ge_cur k rest w v hf)
    · exact ih (better k cur e) hf f hfm' hfk

/-- The tie-breaking predicate: same rule id, same (maximal) confidence. -/
def tiePred (k : String) (c : ℚ) (f : ComplianceEvaluation) : Bool :=
  decide (f.rule_id = k ∧ f.confidence = c)

theorem fold_better_first_some (k : String) (l : List ComplianceEvaluation)
    (u v : ComplianceEvaluation) (hu : u.rule_id = k)
    (h : l.foldl (better k) (some u) = some v) :
    List.find? (tiePred k v.confidence) (u :: l) = some v := by
  induction l generalizing u with
  | nil =>
    rw [List.foldl_nil] at h
    cases h
    simp [List.find?, tiePred, hu]
  | cons e rest ih =>
    rw [List.foldl_cons] at h
    by_cases hek : e.rule_id = k
    · by_cases hlt : u.confidence < e.confidence
      · have hb : better k (some u) e = some e := by simp [better, hek, hlt]
        rw [hb] at h
        have hIH := ih e hek h
        have hvc : e.confidence ≤ v.confidence := fold_better_ge_cur k rest e v h
        have hpu : ¬ (tiePred k v.confidence u = true) := by
          simp only [tiePred, decide_eq_true_eq, not_and]
          intro _
          exact ne_of_lt (lt_of_lt_of_le hlt hvc)
        rw [List.find?_cons_of_neg _ hpu]
        exact hIH
      · have hb : better k (some u) e = some u := by simp [better, hek, hlt]
        rw [hb] at h
        have hIH := ih u hu h
        by_cases hpu : tiePred k v.confidence u = true
        · have h1 : List.find? (tiePred k v.confidence) (u :: rest) = some u :=
            List.find?_cons_of_pos _ hpu
          rw [hIH] at h1
          rw [List.find?_cons_of_pos _ hpu]
          exact h1.symm
        · have h2 : List.find? (tiePred k v.confidence) rest = some v := by
            rw [List.find?_cons_of_neg _ hpu] at hIH
            exact hIH
          have hpe : ¬ (tiePred k v.confidence e = true) := by
            simp only [tiePred, decide_eq_true_eq, not_and]
            intro _ heq
            have huv : u.confidence ≤ v.confidence := fold_better_ge_cur k rest u v h
            have heu : e.confidence ≤ u.confidence := le_of_not_lt hlt
            have huveq : u.confidence = v.confidence :=
              le_antisymm huv (heq ▸ heu)
            exact hpu (by simp [tiePred, hu, huveq])
          rw [List.find?_cons_of_neg _ hpu, List.find?_cons_of_neg _ hpe]
          exact h2
    · have hb : better k (some u) e = some u := by simp [better, hek]
      rw [hb] at h
      have hIH := ih u hu h
      have hpe : ¬ (tiePred k v.confidence e = true) := by
        simp [tiePred, hek]
      by_cases hpu : tiePred k v.confidence u = true
      · rw [List.find?_cons_of_pos _ hpu] at hIH
        rw [List.find?_cons_of_pos _ hpu]
        exact hIH
      · rw [List.find?_cons_of_neg _ hpu] at hIH
        rw [List.find?_cons_of_neg _ hpu, List.find?_cons_of_neg _ hpe]
        exact hIH

theorem fold_better_first_none (k : String) (l : List ComplianceEvaluation)
    (v : ComplianceEvaluation) (h : l.foldl (better k) none = some v) :
    List.find? (tiePred k v.confidence) l = some v := by
  induction l with
  | nil => cases h
  | cons e rest ih =>
    rw [List.foldl_cons] at h
    by_cases hek : e.rule_id = k
    · have hb : better k none e = some e := by simp [better, hek]
      rw [hb] at h
      exact fold_better_first_some k rest e v hek h
    · have hb : better k none e = none := by simp [better, hek]
      rw [hb] at h
      have hpe : ¬ (tiePred k v.confidence e = true) := by simp [tiePred, hek]
      rw [List.find?_cons_of_neg _ hpe]
      exact ih h

theorem dedupInsert_keysConsistent (seen : List (String × ComplianceEvaluation))
    (e : ComplianceEvaluation) (h : ∀ p ∈ seen, (p.2).rule_id = p.1) :
    ∀ p ∈ dedupInsert seen e, (p.2).rule_id = p.1 := by
  induction seen with
  | nil =>
    intro p hp
    simp only [dedupInsert, List.mem_singleton] at hp
    subst hp
    rfl
  | cons q rest ih =>
    obtain ⟨k', v⟩ := q
    intro p hp
    simp only [dedupInsert] at hp
    split_ifs at hp with h1 h2
    · rcases List.mem_cons.mp hp with rfl | hm
      · exact h1
      · exact h _ (List.mem_cons_of_mem _ hm)
    · rcases List.mem_cons.mp hp with rfl | hm
      · exact h _ (List.mem_cons_self _ _)
      · exact h _ (List.mem_cons_of_mem _ hm)
    · rcases List.mem_cons.mp hp with rfl | hm
      · exact h _ (List.mem_cons_self _ _)
      · exact ih (fun p hp => h p (List.mem_cons_of_mem _ hp)) _ hm

theorem dedupInsert_keys (seen : List (String × ComplianceEvaluation))
    (e : ComplianceEvaluation) :
    (dedupInsert seen e).map Prod.fst = seen.map Prod.fst ∨
      ((dedupInsert seen e).map Prod.fst = seen.map Prod.fst ++ [e.rule_id] ∧
        e.rule_id ∉ seen.map Prod.fst) := by
  induction seen with
  | nil =>
    right
    simp [dedupInsert]
  | cons q rest ih =>
    obtain ⟨k', v⟩ := q
    by_cases h1 : e.rule_id = k'
    · left
      by_cases h2 : v.confidence < e.confidence <;> simp [dedupInsert, h1, h2]
    · rcases ih with hk | ⟨hk, hn⟩
      · left
        simp [dedupInsert, h1, hk]
      · right
        refine ⟨by simp [dedupInsert, h1, hk], ?_⟩
        simp only [List.map_cons, List.mem_cons]
        rintro (hh | hh)
        · exact h1 hh
        · exact hn hh

theorem dedupInsert_nodup (seen : List (String × ComplianceEvaluation))
    (e : ComplianceEvaluation) (h : (seen.map Prod.fst).Nodup) :
    ((dedupInsert seen e).map Prod.fst).Nodup := by
  rcases dedupInsert_keys seen e with hk | ⟨hk, hn⟩
  · rw [hk]; exact h
  · rw [hk]
    simp [List.nodup_append, h, hn]

theorem fold_dedupInsert_keysConsistent (l : List ComplianceEvaluation)
    (seen : List (String × ComplianceEvaluation)) (h : ∀ p ∈ seen, (p.2).rule_id = p.1) :
    ∀ p ∈ l.foldl dedupInsert seen, (p.2).rule_id = p.1 := by
  induction l generalizing seen with
  | nil => exact h
  | cons e rest ih => exact ih _ (dedupInsert_keysConsistent seen e h)

theorem fold_dedupInsert_nodup (l : List ComplianceEvaluation)
    (seen : List (String × ComplianceEvaluation)) (h : (seen.map Prod.fst).Nodup) :
    ((l.foldl dedupInsert seen).map Prod.fst).Nodup := by
  induction l generalizing seen with
  | nil => exact h
  | cons e rest ih => exact ih _ (dedupInsert_nodup seen e h)

theorem findKey_of_mem (seen : List (String × ComplianceEvaluation))
    (hnd : (seen.map Prod.fst).Nodup) (k : String) (v : ComplianceEvaluation)
    (hm : (k, v) ∈ seen) : findKey k seen = some v := by
  induction seen with
  | nil => cases hm
  | cons q rest ih =>
    obtain ⟨k', v'⟩ := q
    rw [List.map_cons, List.nodup_cons] at hnd
    rcases List.mem_cons.mp hm with heq | hm'
    · cases heq
      simp [findKey]
    · have hk : k ≠ k' := by
        intro hh
        subst hh
        exact hnd.1 (List.mem_map.mpr ⟨(k, v), hm', rfl⟩)
      rw [findKey, if_neg hk]
      exact ih hnd.2 hm'

theorem dedupByRule_spec (fl : List ComplianceEvaluation) (e : ComplianceEvaluation)
    (he : e ∈ dedupByRule fl) :
    fl.foldl (better e.rule_id) none = some e := by
  unfold dedupByRule at he
  obtain ⟨⟨k1, v1⟩, hp, hpe⟩ := List.mem_map.mp he
  simp only at hpe
  have hc := fold_dedupInsert_keysConsistent fl [] (by simp) (k1, v1) hp
  simp only at hc
  have hnd := fold_dedupInsert_nodup fl [] (by simp)
  have hfk : findKey k1 (fl.foldl dedupInsert []) = some v1 :=
    findKey_of_mem _ hnd _ _ hp
  rw [findKey_foldl] at hfk
  rw [hpe] at hc hfk
  rw [← hc] at hfk
  simp only [findKey] at hfk
  exact hfk

/-! ## Per-evaluator facts: statuses and confidences

Every evaluator only ever assigns PASS, FAIL or REVIEW, and copies
`candidate.score or default` into `confidence`. -/

theorem evaluate_room_component_spec (c : RoomComponent) (r : RuleDetail) (k : RuleCandidate)
    (ev : ComplianceEvaluation) (h : evaluate_room_component c r k = some ev) :
    (ev.status = "PASS" ∨ ev.status = "FAIL" ∨ ev.status = "REVIEW") ∧
    ev.confidence = pyOrScore k.score (mkRat 1 2) := by
  unfold evaluate_room_component at h
  simp only [] at h
  split at h
  · exact Option.noConfusion h
  · simp only [Option.some.injEq] at h
    subst h
    refine ⟨?_, rfl⟩
    dsimp only
    repeat' split
    all_goals simp

theorem evaluate_setback_component_spec (c : SetbackComponent) (r : RuleDetail)
    (k : RuleCandidate) (g : Bool) (ev : ComplianceEvaluation)
    (h : evaluate_setback_component c r k g = some ev) :
    (ev.status = "PASS" ∨ ev.status = "FAIL" ∨ ev.status = "REVIEW") ∧
    ev.confidence = pyOrScore k.score (mkRat 7 10) := by
  unfold evaluate_setback_component at h
  simp only [] at h
  split at h
  · exact Option.noConfusion h
  · simp only [Option.some.injEq] at h
    subst h
    refine ⟨?_, rfl⟩
    dsimp only
    repeat' split
    all_goals simp

theorem evaluate_opening_component_spec (c : OpeningComponent) (r : RuleDetail)
    (k : RuleCandidate) (ev : ComplianceEvaluation)
    (h : evaluate_opening_component c r k = some ev) :
    (ev.status = "PASS" ∨ ev.status = "FAIL" ∨ ev.status = "REVIEW") ∧
    ev.confidence = pyOrScore k.score (mkRat 3 5) := by
  unfold evaluate_opening_component at h
  simp only [] at h
  split at h
  · exact Option.noConfusion h
  · split at h
    · exact Option.noConfusion h
    · simp only [Option.some.injEq] at h
      subst h
      refine ⟨?_, rfl⟩
      dsimp only
      repeat' split
      all_goals simp

theorem evaluate_parking_component_spec (c : ParkingComponent) (r : RuleDetail)
    (k : RuleCandidate) (ev : ComplianceEvaluation)
    (h : evaluate_parking_component c r k = some ev) :
    (ev.status = "PASS" ∨ ev.status = "FAIL" ∨ ev.status = "REVIEW") ∧
    ev.confidence = pyOrScore k.score (mkRat 3 5) := by
  unfold evaluate_parking_component at h
  simp only [] at h
  split at h
  · exact Option.noConfusion h
  · simp only [Option.some.injEq] at h
    subst h
    refine ⟨?_, rfl⟩
    dsimp only
    repeat' split
    all_goals simp

theorem evaluate_lot_info_component_spec (c : LotInfoComponent) (r : RuleDetail)
    (k : RuleCandidate) (ev : ComplianceEvaluation)
    (h : evaluate_lot_info_component c r k = some ev) :
    (ev.status = "PASS" ∨ ev.status = "FAIL" ∨ ev.status = "REVIEW") ∧
    ev.confidence = pyOrScore k.score (mkRat 3 5) := by
  unfold evaluate_lot_info_component at h
  simp only [Option.some.injEq] at h
  subst h
  refine ⟨?_, rfl⟩
  dsimp only
  repeat' split
  all_goals simp

theorem evaluate_water_feature_component_spec (c : WaterFeatureComponent) (r : RuleDetail)
    (k : RuleCandidate) (ev : ComplianceEvaluation)
    (h : evaluate_water_feature_component c r k = some ev) :
    (ev.status = "PASS" ∨ ev.status = "FAIL" ∨ ev.status = "REVIEW") ∧
    ev.confidence = pyOrScore k.score (mkRat 1 2) := by
  unfold evaluate_water_feature_component at h
  simp only [] at h
  split at h
  · exact Option.noConfusion h
  · split at h
    · exact Option.noConfusion h
    · simp only [Option.some.injEq] at h
      subst h
      exact ⟨.inr (.inr rfl), rfl⟩

/-- A candidate whose similarity score, when present, is a genuine
normalized score in `[0, 1]`. -/
def scoreInRange (k : RuleCandidate) : Prop :=
  ∀ s, k.score = some s → 0 ≤ s ∧ s ≤ 1

theorem evaluateComponent_spec (c : Component) (r : RuleDetail) (k : RuleCandidate)
    (ev : ComplianceEvaluation) (h : evaluateComponent c r k = some ev) :
    (ev.status = "PASS" ∨ ev.status = "FAIL" ∨ ev.status = "REVIEW") ∧
    (scoreInRange k → 0 ≤ ev.confidence ∧ ev.confidence ≤ 1) := by
  have hhalf0 : (0 : ℚ) ≤ mkRat 1 2 := by rw [mkRat_cast_eq_div]; norm_num
  have hhalf1 : (mkRat 1 2 : ℚ) ≤ 1 := by rw [mkRat_cast_eq_div]; norm_num
  have h350 : (0 : ℚ) ≤ mkRat 3 5 := by rw [mkRat_cast_eq_div]; norm_num
  have h351 : (mkRat 3 5 : ℚ) ≤ 1 := by rw [mkRat_cast_eq_div]; norm_num
  have h7100 : (0 : ℚ) ≤ mkRat 7 10 := by rw [mkRat_cast_eq_div]; norm_num
  have h7101 : (mkRat 7 10 : ℚ) ≤ 1 := by rw [mkRat_cast_eq_div]; norm_num
  cases c with
  | room c =>
    obtain ⟨h1, h2⟩ := evaluate_room_component_spec c r k ev h
    exact ⟨h1, fun hs => h2 ▸ pyOrScore_mem_unit hs hhalf0 hhalf1⟩
  | setback c g =>
    obtain ⟨h1, h2⟩ := evaluate_setback_component_spec c r k g ev h
    exact ⟨h1, fun hs => h2 ▸ pyOrScore_mem_unit hs h7100 h7101⟩
  | opening c =>
    obtain ⟨h1, h2⟩ := evaluate_opening_component_spec c r k ev h
    exact ⟨h1, fun hs => h2 ▸ pyOrScore_mem_unit hs h350 h351⟩
  | parking c =>
    obtain ⟨h1, h2⟩ := evaluate_parking_component_spec c r k ev h
    exact ⟨h1, fun hs => h2 ▸ pyOrScore_mem_unit hs h350 h351⟩
  | lot_info c =>
    obtain ⟨h1, h2⟩ := evaluate_lot_info_component_spec c r k ev h
    exact ⟨h1, fun hs => h2 ▸ pyOrScore_mem_unit hs h350 h351⟩
  | water_feature c =>
    obtain ⟨h1, h2⟩ := evaluate_water_feature_component_spec c r k ev h
    exact ⟨h1, fun hs => h2 ▸ pyOrScore_mem_unit hs hhalf0 hhalf1⟩

theorem dedupByRule_nodup (fl : List ComplianceEvaluation) :
    ((dedupByRule fl).map (fun e => e.rule_id)).Nodup := by
  unfold dedupByRule
  rw [List.map_map]
  have hc := fold_dedupInsert_keysConsistent fl [] (by simp)
  have hnd := fold_dedupInsert_nodup fl [] (by simp)
  have hmc : (fl.foldl dedupInsert []).map ((fun e => e.rule_id) ∘ Prod.snd) =
      (fl.foldl dedupInsert []).map Prod.fst :=
    List.map_congr_left (fun p hp => hc p hp)
  rw [hmc]
  exact hnd

/-! ## Claims -/

/-- C1: for a room whose applicability gate passes (its `room_type`
appears case-insensitively in the requirement text, or the requirement
contains "BEDROOM"), whose rule attribute contains "area" or "size", and
whose area and expected value are both present (in the code's sense: the
truthiness test `if area and expected_value`) with the expected value
coercible to a number, `evaluate_room_component` returns an evaluation
whose `actual_value` is the room's area and whose status is PASS exactly
when `area >= expected`, FAIL otherwise. -/
theorem C1_room_area_threshold (c : RoomComponent) (r : RuleDetail) (k : RuleCandidate)
    (a m : ℚ)
    (hgate : pyIn (strUpper (c.room_type.getD "")) (strUpper (r.requirement.getD "")) = true ∨
      pyIn "BEDROOM" (strUpper (r.requirement.getD "")) = true)
    (hattr : pyIn "area" (strLower (r.attr.getD "")) = true ∨
      pyIn "size" (strLower (r.attr.getD "")) = true)
    (harea : c.area = some a) (ha0 : a ≠ 0)
    (hval : pyTruthy r.value = true) (hm : pyFloat r.value = some m) :
    (evaluate_room_component c r k).map (fun ev => (ev.actual_value, ev.status)) =
      some (.vnum a, if m ≤ a then "PASS" else "FAIL") := by
  have hg : (!pyIn (strUpper (c.room_type.getD "")) (strUpper (r.requirement.getD "")) &&
      !pyIn "BEDROOM" (strUpper (r.requirement.getD ""))) = false := by
    rcases hgate with h | h <;> simp [h]
  have hor : (pyIn "area" (strLower (r.attr.getD "")) ||
      pyIn "size" (strLower (r.attr.getD ""))) = true := by
    rcases hattr with h | h <;> simp [h]
  have hq : qTruthy (some a) = true := by simp [qTruthy, ha0]
  unfold evaluate_room_component
  simp only [hg, hor, hq, hval, hm, harea, Bool.false_eq_true, if_false, Bool.and_self,
    Bool.and_true, if_true, Option.getD_some, optQ, Option.map]
  split_ifs <;> simp

/-- Witness for C1 at the spec's example: area 120 against attribute
"area", value "100" gives PASS with actual value 120. -/
theorem C1_room_area_threshold_witness :
    (evaluate_room_component ⟨some "Bedroom 1", some "bedroom", some 120, none, none⟩
        ⟨"R-AREA", none, none, some "Minimum BEDROOM area", none, some "area", .vstr "100", []⟩
        ⟨"R-AREA", "pinecone", none⟩).map (fun ev => (ev.actual_value, ev.status)) =
      some (.vnum 120, "PASS") := by
  have h := C1_room_area_threshold
    ⟨some "Bedroom 1", some "bedroom", some 120, none, none⟩
    ⟨"R-AREA", none, none, some "Minimum BEDROOM area", none, some "area", .vstr "100", []⟩
    ⟨"R-AREA", "pinecone", none⟩ 120 (mkRat 100 1)
    (.inl (by decide)) (.inl (by decide)) rfl (by decide) (by decide) (by decide)
  rw [h]
  decide

/-- C2: whenever the domain filter returns a filtered list `fl`,
`filter_and_deduplicate_evaluations` returns `dedupByRule fl`, whose
rule ids are pairwise distinct; each retained evaluation's confidence is
maximal among the evaluations of its rule id that survived the filter
(`fl` preserves the input order of the surviving evaluations); and the
retained evaluation is the first one, in that order, attaining that
maximal confidence. -/
theorem C2_dedup_unique_max_first (evals fl : List ComplianceEvaluation) (cd : ComponentsData)
    (h : domainFilterEvaluations evals cd = .ok fl) :
    filter_and_deduplicate_evaluations evals cd = .ok (dedupByRule fl) ∧
    ((dedupByRule fl).map (fun e => e.rule_id)).Nodup ∧
    (∀ e ∈ dedupByRule fl, ∀ f ∈ fl, f.rule_id = e.rule_id → f.confidence ≤ e.confidence) ∧
    (∀ e ∈ dedupByRule fl, fl.find? (tiePred e.rule_id e.confidence) = some e) := by
  refine ⟨?_, dedupByRule_nodup fl, ?_, ?_⟩
  · unfold filter_and_deduplicate_evaluations
    rw [h]
    rfl
  · intro e he f hf hfk
    exact fold_better_ge_mem e.rule_id fl none e (dedupByRule_spec fl e he) f hf hfk
  · intro e he
    exact fold_better_first_none e.rule_id fl e (dedupByRule_spec fl e he)

/-- A report-shaped evaluation used by the C2 witness (rule id `A`,
confidence one half). -/
def c2BaseEval : ComplianceEvaluation :=
  { component_id := "c", component_type := "room", component_name := "", rule_id := "A",
    section_id := none, section_title := none, requirement := "", topic := some "t",
    expected_value := .vnone, actual_value := .vnone, status := "PASS",
    confidence := mkRat 1 2, notes := [], zones := [], source := "pinecone" }

/-- Duplicate of rule `A` at higher confidence. -/
def c2HighEval : ComplianceEvaluation :=
  { c2BaseEval with component_id := "c2", confidence := mkRat 9 10 }

/-- An evaluation of a different rule id. -/
def c2OtherEval : ComplianceEvaluation :=
  { c2BaseEval with rule_id := "B", confidence := mkRat 3 10 }

/-- Witness for C2 on a concrete non-site-plan document with a duplicated
rule id. -/
theorem C2_dedup_unique_max_first_witness :
    domainFilterEvaluations [c2BaseEval, c2OtherEval, c2HighEval] ⟨[]⟩ =
      .ok [c2BaseEval, c2OtherEval, c2HighEval] ∧
    filter_and_deduplicate_evaluations [c2BaseEval, c2OtherEval, c2HighEval] ⟨[]⟩ =
      .ok (dedupByRule [c2BaseEval, c2OtherEval, c2HighEval]) ∧
    ((dedupByRule [c2BaseEval, c2OtherEval, c2HighEval]).map (fun e => e.rule_id)).Nodup := by
  have hd : domainFilterEvaluations [c2BaseEval, c2OtherEval, c2HighEval] ⟨[]⟩ =
      .ok [c2BaseEval, c2OtherEval, c2HighEval] := by decide
  have h := C2_dedup_unique_max_first [c2BaseEval, c2OtherEval, c2HighEval]
    [c2BaseEval, c2OtherEval, c2HighEval] ⟨[]⟩ hd
  exact ⟨hd, h.1, h.2.1⟩

/-- C3 (amended): the aggregator's pass rate is `100 × |PASS| / total`
rounded to one decimal (Python `round(..., 1)`), not the exact ratio; the
summary recomputed after filtering uses the exact ratio; both are `0` on
an empty evaluation list, so no division by zero occurs. -/
theorem C3_pass_rate_formula (plan ts : String) (evals : List ComplianceEvaluation) :
    (build_compliance_report plan ts evals).summary_pass_rate =
      (if evals.length = 0 then 0
       else round1 (((evals.filter fun e => e.status == "PASS").length : ℚ) / evals.length * 100)) ∧
    (recomputeSummary evals).pass_rate =
      (if evals.length = 0 then 0
       else ((evals.filter fun e => e.status == "PASS").length : ℚ) / evals.length * 100) := by
  cases evals with
  | nil => exact ⟨rfl, rfl⟩
  | cons e rest =>
    constructor
    · simp [build_compliance_report, countsGet_tally]
    · simp [recomputeSummary, countsGet_tally]

/-- A PASS evaluation for the C3 counterexample. -/
def c3PassEval : ComplianceEvaluation :=
  { component_id := "c", component_type := "room", component_name := "", rule_id := "A",
    section_id := none, section_title := none, requirement := "", topic := some "t",
    expected_value := .vnone, actual_value := .vnone, status := "PASS",
    confidence := mkRat 1 2, notes := [], zones := [], source := "pinecone" }

/-- A REVIEW evaluation for the C3 counterexample. -/
def c3RevEval1 : ComplianceEvaluation := { c3PassEval with status := "REVIEW", rule_id := "B" }

/-- Another REVIEW evaluation for the C3 counterexample. -/
def c3RevEval2 : ComplianceEvaluation := { c3PassEval with status := "REVIEW", rule_id := "C" }

/-- Counterexample to C3 as stated: with 1 PASS among 3 evaluations the
aggregator reports 33.3, which is not `100 × 1 / 3`. -/
theorem C3_pass_rate_counterexample :
    (build_compliance_report "plan" "now" [c3PassEval, c3RevEval1, c3RevEval2]).summary_pass_rate =
      mkRat 333 10 ∧
    ¬ ((build_compliance_report "plan" "now"
          [c3PassEval, c3RevEval1, c3RevEval2]).summary_pass_rate =
        100 * ((([c3PassEval, c3RevEval1, c3RevEval2].filter
            fun e => e.status == "PASS").length : ℚ) /
          ([c3PassEval, c3RevEval1, c3RevEval2] : List ComplianceEvaluation).length)) := by
  constructor <;> decide

/-- C4: every evaluation `evaluate_water_feature_component` produces has
status REVIEW — never PASS, never FAIL — whatever the rule's value or
the component's attributes. -/
theorem C4_water_always_review (c : WaterFeatureComponent) (r : RuleDetail) (k : RuleCandidate)
    (ev : ComplianceEvaluation) (h : evaluate_water_feature_component c r k = some ev) :
    ev.status = "REVIEW" := by
  unfold evaluate_water_feature_component at h
  simp only [] at h
  split at h
  · exact Option.noConfusion h
  · split at h
    · exact Option.noConfusion h
    · simp only [Option.some.injEq] at h
      subst h
      rfl

/-- Witness for C4: a creek against a rule whose requirement contains
"CREEK" is evaluated and gets REVIEW. -/
theorem C4_water_always_review_witness :
    (evaluate_water_feature_component ⟨some "creek", some "Moggill Creek"⟩
        ⟨"W1", none, none, some "Setbacks from any CREEK apply", none, none, .vstr "20", []⟩
        ⟨"W1", "pinecone", none⟩).map (fun ev => ev.status) = some "REVIEW" := by
  cases hh : evaluate_water_feature_component ⟨some "creek", some "Moggill Creek"⟩
      ⟨"W1", none, none, some "Setbacks from any CREEK apply", none, none, .vstr "20", []⟩
      ⟨"W1", "pinecone", none⟩ with
  | none => exact absurd hh (by decide)
  | some e =>
    have hs := C4_water_always_review _ _ _ e hh
    simp [Option.map, hs]

/-- C5: a setback with distance 3.5 and direction "front", evaluated with
an expected value of "5" when the direction gate passes, fails with a
note mentioning both 3.5 and 5. -/
theorem C5_setback_fail_note (c : SetbackComponent) (r : RuleDetail) (k : RuleCandidate)
    (hdir : c.direction = some "front") (hdist : c.distance = some (mkRat 7 2))
    (hval : r.value = .vstr "5")
    (hgate : (pyIn "FRONT" (strUpper (r.requirement.getD "")) ||
       pyIn "SIDE" (strUpper (r.requirement.getD "")) ||
       pyIn "REAR" (strUpper (r.requirement.getD ""))) = true) :
    (evaluate_setback_component c r k false).map
        (fun ev => (ev.status, ev.notes.any (fun n => pyIn "3.5" n && pyIn "5" n))) =
      some ("FAIL", true) := by
  have hcond : (pyIn "FRONT" (strUpper ((some "front" : Option String).getD "unknown")) &&
      !pyIn "FRONT" (strUpper (r.requirement.getD "")) &&
      (!pyIn "SIDE" (strUpper (r.requirement.getD "")) &&
        !pyIn "REAR" (strUpper (r.requirement.getD "")))) = false := by
    cases hF : pyIn "FRONT" (strUpper (r.requirement.getD "")) <;>
    cases hS : pyIn "SIDE" (strUpper (r.requirement.getD "")) <;>
    cases hR : pyIn "REAR" (strUpper (r.requirement.getD "")) <;>
      simp_all
  unfold evaluate_setback_component
  simp only []
  rw [hdir, hdist, hval]
  simp only [hcond, Bool.false_eq_true, if_false, Option.map]
  exact congrArg some (by decide)

/-- Witness for C5 at a concrete FRONT-setback rule. -/
theorem C5_setback_fail_note_witness :
    (evaluate_setback_component ⟨some "front", some (mkRat 7 2), none⟩
        ⟨"S1", none, none, some "Minimum FRONT setback", none, none, .vstr "5", []⟩
        ⟨"S1", "pinecone", none⟩ false).map
        (fun ev => (ev.status, ev.notes.any (fun n => pyIn "3.5" n && pyIn "5" n))) =
      some ("FAIL", true) :=
  C5_setback_fail_note ⟨some "front", some (mkRat 7 2), none⟩
    ⟨"S1", none, none, some "Minimum FRONT setback", none, none, .vstr "5", []⟩
    ⟨"S1", "pinecone", none⟩ rfl rfl rfl (by decide)

/-- The component used by the C6 witness and counterexample. -/
def c6Room : Component := .room ⟨some "Bed 1", some "bedroom", some 120, none, none⟩

/-- The rule used by the C6 witness and counterexample. -/
def c6Rule : RuleDetail :=
  ⟨"R6", none, none, some "Minimum BEDROOM area", some "residential", some "area", .vstr "100", []⟩

/-- An error text of 101 characters, longer than the `[:100]` slice. -/
def c6LongError : String := ⟨List.replicate 101 'a'⟩

/-- C6 (amended): without an oracle client `check_rule_relevance` returns
relevant at confidence 0.5 with the fixed reasoning string; when the
oracle call raises, it returns relevant at confidence 0.3 with reasoning
`"LLM error: "` followed by the FIRST 100 CHARACTERS of the error text
(`str(exc)[:100]`); in neither case does the exception escape (the
function is total and returns a triple). -/
theorem C6_relevance_oracle_fallbacks (c : Component) (r : RuleDetail) :
    check_rule_relevance c r none =
      (true, mkRat 1 2, "LLM unavailable, defaulting to relevant") ∧
    ∀ (f : OracleFn) (e : String), f (relevancePrompt c r) = .error e →
      check_rule_relevance c r (some f) =
        (true, mkRat 3 10, "LLM error: " ++ strTake e 100) := by
  refine ⟨rfl, fun f e hf => ?_⟩
  unfold check_rule_relevance
  dsimp only
  rw [hf]

/-- Counterexample to C6 as stated: a 101-character error text is
truncated, so the reasoning does not contain the error text. -/
theorem C6_truncation_counterexample :
    (check_rule_relevance c6Room c6Rule (some fun _ => .error c6LongError)).2.2 =
      "LLM error: " ++ strTake c6LongError 100 ∧
    pyIn c6LongError
      ((check_rule_relevance c6Room c6Rule (some fun _ => .error c6LongError)).2.2) = false := by
  constructor
  · rfl
  · decide

/-- Witness for C6 at a concrete component, rule and failing oracle. -/
theorem C6_relevance_oracle_fallbacks_witness :
    check_rule_relevance c6Room c6Rule none =
      (true, mkRat 1 2, "LLM unavailable, defaulting to relevant") ∧
    check_rule_relevance c6Room c6Rule (some fun _ => .error "boom") =
      (true, mkRat 3 10, "LLM error: boom") := by
  have h := C6_relevance_oracle_fallbacks c6Room c6Rule
  refine ⟨h.1, ?_⟩
  have h2 := h.2 (fun _ => .error "boom") "boom" rfl
  rw [h2]
  decide

/-- C7 (amended): for a setback whose direction contains "front", the
evaluator skips a rule exactly when the requirement text mentions none
of FRONT, SIDE and REAR; in particular a requirement that lacks "FRONT"
but contains "SIDE" or "REAR" is still evaluated — the opposite of the
claimed gate. -/
theorem C7_front_direction_gate (c : SetbackComponent) (r : RuleDetail) (k : RuleCandidate)
    (g : Bool)
    (hfront : pyIn "FRONT" (strUpper (c.direction.getD "unknown")) = true) :
    evaluate_setback_component c r k g = none ↔
      (pyIn "FRONT" (strUpper (r.requirement.getD "")) = false ∧
       pyIn "SIDE" (strUpper (r.requirement.getD "")) = false ∧
       pyIn "REAR" (strUpper (r.requirement.getD "")) = false) := by
  cases hF : pyIn "FRONT" (strUpper (r.requirement.getD "")) <;>
  cases hS : pyIn "SIDE" (strUpper (r.requirement.getD "")) <;>
  cases hR : pyIn "REAR" (strUpper (r.requirement.getD "")) <;>
    simp [evaluate_setback_component, hfront, hF, hS, hR]

/-- The front setback used by the C7 counterexample and witness. -/
def c7Setback : SetbackComponent := ⟨some "front", some (mkRat 7 2), none⟩

/-- A rule whose requirement mentions SIDE but not FRONT. -/
def c7SideRule : RuleDetail :=
  ⟨"R7", none, none, some "Minimum SIDE setback of 1.5m", none, none, .vstr "1.5", []⟩

/-- A rule whose requirement mentions none of FRONT, SIDE, REAR. -/
def c7PlainRule : RuleDetail :=
  ⟨"R7B", none, none, some "General clearance of 5m", none, none, .vstr "5", []⟩

/-- Counterexample to C7 as stated: a front setback against a SIDE-only
requirement is evaluated (not skipped), while a requirement mentioning
none of the three directions is skipped (not evaluated). -/
theorem C7_front_direction_gate_counterexample :
    (evaluate_setback_component c7Setback c7SideRule ⟨"R7", "neo4j_keyword", none⟩ false).isSome =
      true ∧
    pyIn "FRONT" (strUpper (c7SideRule.requirement.getD "")) = false ∧
    pyIn "SIDE" (strUpper (c7SideRule.requirement.getD "")) = true ∧
    evaluate_setback_component c7Setback c7PlainRule ⟨"R7B", "neo4j_keyword", none⟩ false =
      none := by
  refine ⟨by decide, by decide, by decide, by decide⟩

/-- Witness for C7 (amended) at the keyword-free requirement. -/
theorem C7_front_direction_gate_witness :
    pyIn "FRONT" (strUpper (c7Setback.direction.getD "unknown")) = true ∧
    evaluate_setback_component c7Setback c7PlainRule ⟨"R7B", "neo4j_keyword", none⟩ false =
      none :=
  ⟨by decide,
    (C7_front_direction_gate c7Setback c7PlainRule ⟨"R7B", "neo4j_keyword", none⟩ false
      (by decide)).mpr ⟨by decide, by decide, by decide⟩⟩

/-- C8 (amended): in a report built from evaluator outputs, every
evaluation's status is one of the five defined values — unconditionally,
whatever similarity scores the candidates carried; and provided each
candidate's similarity score (when present) lies in `[0, 1]`, every
confidence lies in `[0, 1]`.  (Without the score hypothesis the
confidence bound is false: the score is copied into the confidence
unchanged.) -/
theorem C8_report_status_confidence (plan ts : String) (evals : List ComplianceEvaluation)
    (h : ∀ ev ∈ evals, ∃ c r k, evaluateComponent c r k = some ev) :
    (∀ re ∈ (build_compliance_report plan ts evals).evaluations,
      re.status ∈ (["PASS", "FAIL", "REVIEW", "NOT_APPLICABLE", "NO_APPLICABLE_RULES"] :
        List String)) ∧
    ((∀ ev ∈ evals, ∃ c r k, scoreInRange k ∧ evaluateComponent c r k = some ev) →
      ∀ re ∈ (build_compliance_report plan ts evals).evaluations,
        0 ≤ re.confidence ∧ re.confidence ≤ 1) := by
  constructor
  · intro re hre
    unfold build_compliance_report at hre
    simp only [] at hre
    obtain ⟨ev, hev, hre2⟩ := List.mem_map.mp hre
    obtain ⟨c, r, k, heval⟩ := h ev hev
    obtain ⟨hst, _⟩ := evaluateComponent_spec c r k ev heval
    subst hre2
    rcases hst with h1 | h1 | h1 <;> simp [h1]
  · intro hsc re hre
    unfold build_compliance_report at hre
    simp only [] at hre
    obtain ⟨ev, hev, hre2⟩ := List.mem_map.mp hre
    obtain ⟨c, r, k, hs, heval⟩ := hsc ev hev
    obtain ⟨_, hcf⟩ := evaluateComponent_spec c r k ev heval
    subst hre2
    have hb := hcf hs
    exact round3_mem_unit hb.1 hb.2

/-- The room used to build the C8 counterexample evaluation. -/
def c8Room : RoomComponent := ⟨some "Bed 1", some "bedroom", some 120, none, none⟩

/-- The rule used by the C8 counterexample. -/
def c8Rule : RuleDetail :=
  ⟨"R8", none, none, some "Minimum BEDROOM area", none, some "area", .vstr "100", []⟩

/-- A retrieval candidate carrying an out-of-range similarity score. -/
def c8BigScoreCand : RuleCandidate := ⟨"R8", "pinecone", some (mkRat 3 2)⟩

/-- Counterexample to C8 as stated: a candidate score of 1.5 flows
unchanged into the reported confidence, which then exceeds 1. -/
theorem C8_confidence_counterexample :
    ((build_compliance_report "plan" "now"
        (evaluate_room_component c8Room c8Rule c8BigScoreCand).toList).evaluations.map
      fun re => re.confidence) = [mkRat 3 2] ∧
    ¬ ((mkRat 3 2 : ℚ) ≤ 1) := by
  constructor <;> decide

/-- The room for the C8 witness. -/
def c8wRoom : RoomComponent := ⟨some "r", some "", none, none, none⟩

/-- The (attribute-free) rule for the C8 witness. -/
def c8wRule : RuleDetail := ⟨"R8W", none, none, none, none, none, .vnone, []⟩

/-- The scoreless candidate for the C8 witness. -/
def c8wCand : RuleCandidate := ⟨"R8W", "neo4j_keyword", none⟩

/-- The evaluation the C8 witness feeds through the report builder:
exactly `evaluate_room_component c8wRoom c8wRule c8wCand`. -/
def c8wEval : ComplianceEvaluation :=
  { component_id := "room_r", component_type := "room", component_name := "r",
    rule_id := "R8W", section_id := none, section_title := none, requirement := "",
    topic := none, expected_value := .vnone, actual_value := .vnone, status := "REVIEW",
    confidence := mkRat 1 2,
    notes := ["Rule attribute not directly measurable from extracted data"],
    zones := [], source := "neo4j_keyword" }

/-- The evaluation produced for `c8Room` against `c8Rule` with the
out-of-range score 1.5: exactly
`evaluate_room_component c8Room c8Rule c8BigScoreCand`. -/
def c8BigEval : ComplianceEvaluation :=
  { component_id := "room_Bed 1", component_type := "room", component_name := "Bed 1",
    rule_id := "R8", section_id := none, section_title := none,
    requirement := "Minimum BEDROOM area", topic := none, expected_value := .vstr "100",
    actual_value := .vnum 120, status := "PASS", confidence := mkRat 3 2,
    notes := ["Room area 120.0 sq ft meets minimum 100.0 sq ft"],
    zones := [], source := "pinecone" }

/-- Witness for C8 (amended): the confidence bound on a scoreless
one-evaluation report, and the unconditional status membership also on a
report whose only candidate carried the out-of-range score 1.5. -/
theorem C8_report_status_confidence_witness :
    (c8wEval ∈ (build_compliance_report "plan" "now" [c8wEval]).evaluations ∧
      c8wEval.status ∈ (["PASS", "FAIL", "REVIEW", "NOT_APPLICABLE", "NO_APPLICABLE_RULES"] :
        List String) ∧
      0 ≤ c8wEval.confidence ∧ c8wEval.confidence ≤ 1) ∧
    (c8BigEval ∈ (build_compliance_report "plan" "now" [c8BigEval]).evaluations ∧
      c8BigEval.status ∈ (["PASS", "FAIL", "REVIEW", "NOT_APPLICABLE", "NO_APPLICABLE_RULES"] :
        List String)) := by
  have hmem : c8wEval ∈ (build_compliance_report "plan" "now" [c8wEval]).evaluations := by
    decide
  have hmemB : c8BigEval ∈ (build_compliance_report "plan" "now" [c8BigEval]).evaluations := by
    decide
  have hprov : ∀ ev ∈ ([c8wEval] : List ComplianceEvaluation),
      ∃ c r k, evaluateComponent c r k = some ev := by
    intro ev hev
    rw [List.mem_singleton] at hev
    subst hev
    exact ⟨.room c8wRoom, c8wRule, c8wCand, by decide⟩
  have hprov2 : ∀ ev ∈ ([c8wEval] : List ComplianceEvaluation),
      ∃ c r k, scoreInRange k ∧ evaluateComponent c r k = some ev := by
    intro ev hev
    rw [List.mem_singleton] at hev
    subst hev
    exact ⟨.room c8wRoom, c8wRule, c8wCand, fun s hs => Option.noConfusion hs, by decide⟩
  have hprovB : ∀ ev ∈ ([c8BigEval] : List ComplianceEvaluation),
      ∃ c r k, evaluateComponent c r k = some ev := by
    intro ev hev
    rw [List.mem_singleton] at hev
    subst hev
    exact ⟨.room c8Room, c8Rule, c8BigScoreCand, by decide⟩
  have h1 := C8_report_status_confidence "plan" "now" [c8wEval] hprov
  have h2 := C8_report_status_confidence "plan" "now" [c8BigEval] hprovB
  exact ⟨⟨hmem, h1.1 c8wEval hmem, h1.2 hprov2 c8wEval hmem⟩, hmemB, h2.1 c8BigEval hmemB⟩

/-- C9: a room whose `room_type` is absent or empty passes the room
applicability gate against every rule (the empty string is a substring
of every requirement), so an evaluation is always produced. -/
theorem C9_empty_room_type_never_skipped (c : RoomComponent) (r : RuleDetail)
    (k : RuleCandidate) (hrt : c.room_type = none ∨ c.room_type = some "") :
    (evaluate_room_component c r k).isSome = true := by
  have hempty : strUpper (c.room_type.getD "") = "" := by
    rcases hrt with h | h <;> rw [h] <;> rfl
  unfold evaluate_room_component
  simp [hempty, pyIn_empty]

/-- Witness for C9: a room without a `room_type` key, against a rule
whose requirement mentions no room type at all, is still evaluated. -/
theorem C9_empty_room_type_never_skipped_witness :
    ((⟨some "Mystery", none, some 10, none, none⟩ : RoomComponent).room_type = none ∨
      (⟨some "Mystery", none, some 10, none, none⟩ : RoomComponent).room_type = some "") ∧
    (evaluate_room_component ⟨some "Mystery", none, some 10, none, none⟩
        ⟨"R9", none, none, some "Maximum site coverage", none, some "coverage", .vstr "50", []⟩
        ⟨"R9", "pinecone", some (mkRat 4 5)⟩).isSome = true :=
  ⟨.inl rfl,
    C9_empty_room_type_never_skipped ⟨some "Mystery", none, some 10, none, none⟩
      ⟨"R9", none, none, some "Maximum site coverage", none, some "coverage", .vstr "50", []⟩
      ⟨"R9", "pinecone", some (mkRat 4 5)⟩ (.inl rfl)⟩

/-- The room generating the null-topic evaluation for C10. -/
def c10Room : RoomComponent := ⟨some "Bed 1", some "bedroom", some 120, none, none⟩

/-- A rule without a topic (the store returns null), as the aggregator
serializes into a null `topic` field. -/
def c10Rule : RuleDetail :=
  ⟨"R10", none, none, some "Minimum BEDROOM area", none, some "area", .vstr "100", []⟩

/-- A components document whose first sheet carries lot information, so
the report-time pass treats the plan as a site plan. -/
def c10SiteData : ComponentsData := ⟨[⟨some [("lot_area", .lnum 600)]⟩]⟩

/-- C10: on a site plan, an aggregator-emitted evaluation whose `topic`
is null makes `filter_and_deduplicate_evaluations` raise (the domain
filter calls `.lower()` on `None`) instead of returning a list. -/
theorem C10_null_topic_crash :
    filter_and_deduplicate_evaluations
        (evaluate_room_component c10Room c10Rule ⟨"R10", "pinecone", none⟩).toList
        c10SiteData =
      .error "AttributeError: 'NoneType' object has no attribute 'lower'" := by
  decide

end PlanCompliance
